import Mathlib

/-!
Verification of the response-normalization and context-assembly layer of the
Bedrock chat application (`src/app.py`, `src/bedrock_utils.py`).

The Python code is shallowly embedded: Python values flowing through the
defensive-parsing code are modelled by the inductive type `JVal`
(`None`/bool/number/str/list/dict); Python code that may raise is embedded in
`Except String`; the two external capabilities (knowledge-base `retrieve` and
model `invoke`) are oracles passed in as `Except String JVal` arguments
(`.error` = a transport/service exception raised by the call, `.ok v` = the
parsed response value).  Python strings are sequences of code points, so
`len`, slicing and `in` are modelled on `String.data`.  Numeric values are
modelled with `Int` where a literal is needed; no claim inspects non-integer
arithmetic, and `temperature`/`top_p` flow through the code as opaque values,
so they are passed as `JVal` arguments.
-/

namespace BedrockChat

/-- A Python value as handled by the defensive-parsing code: `None`, bool,
number, string, list, or dict (insertion-ordered key/value pairs with unique
keys, as in Python). -/
inductive JVal where
  | jnull : JVal
  | jbool : Bool → JVal
  | jnum : Int → JVal
  | jstr : String → JVal
  | jarr : List JVal → JVal
  | jobj : List (String × JVal) → JVal

/-- Python truthiness: `None`, `False`, `0`, `''`, `[]`, `{}` are falsy. -/
def jTruthy : JVal → Bool
  | .jnull => false
  | .jbool b => b
  | .jnum n => n != 0
  | .jstr s => !s.data.isEmpty
  | .jarr l => !l.isEmpty
  | .jobj l => !l.isEmpty

/-- Python `a or b`: `a` if truthy, else `b`. -/
def pyOr (a b : JVal) : JVal := if jTruthy a then a else b

/-- Lookup in a dict's field list (first occurrence; keys are unique in a
Python dict). `none` models an absent key. -/
def jget : List (String × JVal) → String → Option JVal
  | [], _ => none
  | (k, v) :: rest, key => if k = key then some v else jget rest key

/-- Python `d.get(key)` on a dict: the value, or `None` when absent. -/
def pyGet (fields : List (String × JVal)) (key : String) : JVal :=
  (jget fields key).getD .jnull

/-- Python `v.get(key)` on an arbitrary value: raises `AttributeError` when
`v` is not a dict. -/
def pyGetE : JVal → String → Except String JVal
  | .jobj fields, key => .ok (pyGet fields key)
  | _, _ => .error "AttributeError"

/-- Python iteration `for x in v`: a list yields its elements, a dict its
keys, a string its characters; other values raise `TypeError`. -/
def pyIter : JVal → Except String (List JVal)
  | .jarr l => .ok l
  | .jobj fields => .ok (fields.map (fun kv => .jstr kv.1))
  | .jstr s => .ok (s.data.map (fun c => .jstr (String.mk [c])))
  | _ => .error "TypeError"

/-- Python `len` on a string (number of code points). -/
def pyLen (s : String) : Nat := s.data.length

/-- Python slicing `s[:n]` (first `n` code points). -/
def pyTake (s : String) (n : Nat) : String := ⟨s.data.take n⟩

/-- Python `str.upper()`, restricted to per-character uppercasing (exact for
the ASCII letters the classifier scans for). -/
def pyUpper (s : String) : String := ⟨s.data.map Char.toUpper⟩

/-- Python `str.lower()`, per-character lowercasing (exact for the ASCII
model-identifier markers the payload adapter inspects). -/
def pyLower (s : String) : String := ⟨s.data.map Char.toLower⟩

/-- `needle` occurs at the head of `hay`. -/
def charListLeads : List Char → List Char → Bool
  | [], _ => true
  | _ :: _, [] => false
  | a :: as, b :: bs => a == b && charListLeads as bs

/-- `needle` occurs somewhere in `hay` (contiguously). -/
def charListHasSub (needle : List Char) : List Char → Bool
  | [] => needle.isEmpty
  | b :: rest => charListLeads needle (b :: rest) || charListHasSub needle rest

/-- Python substring test `needle in hay`. -/
def pyInStr (needle hay : String) : Bool := charListHasSub needle.data hay.data

/-- Python `sep.join(pieces)`. -/
def pyJoin (sep : String) : List String → String
  | [] => ""
  | [s] => s
  | s :: rest => s ++ sep ++ pyJoin sep rest

/-- Decimal digits of a natural number (most significant first), with a fuel
argument for structural recursion; `n + 1` fuel always suffices since each
step divides by 10. -/
def natDigitsAux : Nat → Nat → List Char
  | 0, _ => []
  | fuel + 1, n =>
    if n < 10 then [Nat.digitChar n]
    else natDigitsAux fuel (n / 10) ++ [Nat.digitChar (n % 10)]

/-- Decimal digits of a natural number. -/
def natDigits (n : Nat) : List Char := natDigitsAux (n + 1) n

/-- Python's decimal rendering of an integer, as produced by `str` and
`json.dumps`. -/
def intRepr : Int → String
  | .ofNat m => ⟨natDigits m⟩
  | .negSucc m => ⟨'-' :: natDigits (m + 1)⟩

/-- JSON string escaping as in `json.dumps` (quote, backslash and newline;
other control characters do not occur in the inputs of interest). -/
def jsonEscape (c : Char) : List Char :=
  if c = '"' then ['\\', '"']
  else if c = '\\' then ['\\', '\\']
  else if c = '\n' then ['\\', 'n']
  else [c]

/-- The JSON form of a string, `json.dumps`-style. -/
def jsonDumpsStr (s : String) : String :=
  ⟨'"' :: (s.data.flatMap jsonEscape ++ ['"'])⟩

mutual

/-- Python `json.dumps(v)` with its default separators `", "` and `": "`. -/
def jsonDumps : JVal → String
  | .jnull => "null"
  | .jbool true => "true"
  | .jbool false => "false"
  | .jnum n => intRepr n
  | .jstr s => jsonDumpsStr s
  | .jarr l => "[" ++ pyJoin ", " (jsonDumpsArr l) ++ "]"
  | .jobj fields => "\x7b" ++ pyJoin ", " (jsonDumpsObj fields) ++ "\x7d"

/-- The serialized elements of a JSON array. -/
def jsonDumpsArr : List JVal → List String
  | [] => []
  | v :: rest => jsonDumps v :: jsonDumpsArr rest

/-- The serialized `"key": value` entries of a JSON object. -/
def jsonDumpsObj : List (String × JVal) → List String
  | [] => []
  | (k, v) :: rest => (jsonDumpsStr k ++ ": " ++ jsonDumps v) :: jsonDumpsObj rest

end

/-- Python `str(v)`.  Exact for `None`, booleans, numbers and strings; the
textual form of containers is approximated by their JSON form (no claim
depends on the `repr` of a container). -/
def pyStr : JVal → String
  | .jnull => "None"
  | .jbool true => "True"
  | .jbool false => "False"
  | .jnum n => intRepr n
  | .jstr s => s
  | v => jsonDumps v

/-! ## `bedrock_utils._normalize_retrieval_item` -/

/-- `_normalize_retrieval_item(item)` from `src/bedrock_utils.py`.  A non-dict
item is coerced via `str`; for a dict, `text` is probed from
`content`/`contents` (dict, or first element of a list), then from top-level
`text`/`documentText`, then from `document.text`; `id`, `metadata` and
`score` are probed from their documented key chains.  `doc.get(...)` raises
`AttributeError` when `item['document']` is a truthy non-dict, hence the
`Except`. -/
def _normalize_retrieval_item (item : JVal) : Except String JVal :=
  match item with
  | .jobj fields => do
    let doc := pyOr (pyGet fields "document") (.jobj [])
    let content := pyOr (pyGet fields "content") (pyGet fields "contents")
    let text :=
      match content with
      | .jobj cf => pyOr (pyOr (pyGet cf "text") (pyGet cf "documentText")) (.jstr "")
      | .jarr (first :: _) =>
        match first with
        | .jobj ff => pyOr (pyOr (pyGet ff "text") (pyGet ff "documentText")) (.jstr "")
        | _ => .jstr ""
      | _ => .jstr ""
    let text ←
      if jTruthy text then pure text
      else
        let a := pyGet fields "text"
        if jTruthy a then pure a
        else
          let b := pyGet fields "documentText"
          if jTruthy b then pure b
          else do
            let c ← pyGetE doc "text"
            if jTruthy c then pure c else pure (.jstr "")
    let doc_id ←
      (let a := pyGet fields "documentId"
       if jTruthy a then pure a
       else
         let b := pyGet fields "id"
         if jTruthy b then pure b
         else pyGetE doc "id")
    let metadata ←
      (let a := pyGet fields "metadata"
       if jTruthy a then pure a
       else do
         let b ← pyGetE doc "metadata"
         if jTruthy b then pure b else pure (.jobj []))
    let score :=
      let a := pyGet fields "score"
      if jTruthy a then a
      else
        let b := pyGet fields "similarity"
        if jTruthy b then b else pyGet fields "relevanceScore"
    pure (.jobj [("id", doc_id), ("text", text), ("metadata", metadata), ("score", score)])
  | _ =>
    pure (.jobj [("id", .jnull), ("text", .jstr (pyStr item)),
                 ("metadata", .jobj []), ("score", .jnull)])

/-! ## `bedrock_utils.query_knowledge_base` -/

/-- The second round of key-probing in `query_knowledge_base`: the first key
among `items`, `results`, `hits` whose value in the record is a list. -/
def probeNestedBatch (fields : List (String × JVal)) : Option (List JVal) :=
  ["items", "results", "hits"].findSome? (fun k =>
    match jget fields k with
    | some (.jarr l) => some l
    | _ => none)

/-- The body of the `try` block of `query_knowledge_base` after the
`retrieve` call returned `response`: batch extraction over the keys
`retrievalResults`/`results`/`items`/`hits` (defaulting to `[]`), a second
round of probing when the batch is itself a dict, then iteration and
per-item normalization. -/
def queryKbBody (response : JVal) : Except String (List JVal) := do
  let r1 ← pyGetE response "retrievalResults"
  let r2 ← pyGetE response "results"
  let r3 ← pyGetE response "items"
  let r4 ← pyGetE response "hits"
  let results := pyOr (pyOr (pyOr (pyOr r1 r2) r3) r4) (.jarr [])
  let results :=
    match results with
    | .jobj fields =>
      match probeNestedBatch fields with
      | some l => .jarr l
      | none => .jobj fields
    | other => other
  let items ← pyIter (pyOr results (.jarr []))
  items.mapM _normalize_retrieval_item

/-- `query_knowledge_base` from `src/bedrock_utils.py`.  The `retrieve` call
is an oracle: `.error` models a `ClientError` or any other exception raised
by the call.  Both `except` arms, and any exception raised inside the `try`
body (including by `_normalize_retrieval_item`), yield `[]`. -/
def query_knowledge_base (retrieveResp : Except String JVal) : List JVal :=
  match retrieveResp with
  | .error _ => []
  | .ok response =>
    match queryKbBody response with
    | .ok l => l
    | .error _ => []

/-! ## `bedrock_utils.generate_response` (Model Payload Adapter) -/

/-- The branch condition of `generate_response`: the lower-cased model id
contains `'anthropic.'` (with the trailing dot, as written in the source) or
`'claude'`. -/
def claudeMarkerCond (model_id : String) : Bool :=
  pyInStr "anthropic." (pyLower model_id) || pyInStr "claude" (pyLower model_id)

/-- The request payload built by `generate_response`: the Claude-family
messages-array shape when `claudeMarkerCond` holds, otherwise the flat
generic shape with an `input` field.  (`model_id or ''` only matters for a
non-string id, which cannot arise here.)  `temperature`, `top_p` and
`max_tokens` flow through opaquely. -/
def build_payload (prompt model_id : String) (temperature top_p max_tokens : JVal) : JVal :=
  if claudeMarkerCond model_id then
    .jobj [("anthropic_version", .jstr "bedrock-2023-05-31"),
           ("messages", .jarr [.jobj [("role", .jstr "user"),
             ("content", .jarr [.jobj [("type", .jstr "text"), ("text", .jstr prompt)]])]]),
           ("max_tokens", max_tokens),
           ("temperature", temperature),
           ("top_p", top_p)]
  else
    .jobj [("input", .jstr prompt),
           ("max_tokens", max_tokens),
           ("temperature", temperature),
           ("top_p", top_p)]

/-- The Claude-family request shape described by the spec: a `messages` key
holding an array, and no flat `input` field. -/
def isMessagesShape : JVal → Bool
  | .jobj fields =>
    (match jget fields "messages" with
     | some (.jarr _) => true
     | _ => false) && (jget fields "input").isNone
  | _ => false

/-- The flat generic request shape described by the spec: an `input` key
holding the prompt string, and no `messages` array. -/
def isFlatInputShape : JVal → Bool
  | .jobj fields =>
    (match jget fields "input" with
     | some (.jstr _) => true
     | _ => false) && (jget fields "messages").isNone
  | _ => false

/-- The response-text extraction of `generate_response` applied to the parsed
response `data`: probe a `content` list whose first element is a dict with a
`text` field (returned whatever its type, as in the source); then the first
of `output`/`generatedText`/`text`/`result` holding a string; then a
`results` list whose first element is a dict with a string under
`output`/`text`/`generatedText`; else `json.dumps(data)`. -/
def extract_text (data : JVal) : JVal :=
  match data with
  | .jobj fields =>
    let fromContent : Option JVal :=
      match jget fields "content" with
      | some (.jarr (first :: _)) =>
        match first with
        | .jobj ff => jget ff "text"
        | _ => none
      | _ => none
    match fromContent with
    | some v => v
    | none =>
      let fromKeys : Option JVal :=
        ["output", "generatedText", "text", "result"].findSome? (fun k =>
          match jget fields k with
          | some (.jstr s) => some (.jstr s)
          | _ => none)
      match fromKeys with
      | some v => v
      | none =>
        let fromResults : Option JVal :=
          match jget fields "results" with
          | some (.jarr (r0 :: _)) =>
            match r0 with
            | .jobj rf =>
              ["output", "text", "generatedText"].findSome? (fun k =>
                match jget rf k with
                | some (.jstr s) => some (.jstr s)
                | _ => none)
            | _ => none
          | _ => none
        match fromResults with
        | some v => v
        | none => .jstr (jsonDumps data)
  | _ => .jstr (jsonDumps data)

/-- The value returned by `generate_response`: the model `invoke` call (with
body reading and JSON parsing) is an oracle; a raised `ClientError` or any
other exception is caught and yields `None`, otherwise the extraction runs
on the parsed data. -/
def generate_response_result (invokeResp : Except String JVal) : JVal :=
  match invokeResp with
  | .ok data => extract_text data
  | .error _ => .jnull

/-! ## `bedrock_utils.valid_prompt` (Prompt Gate) -/

/-- The five category letters, in the fixed probing order of the source's
`for ch in ('A', 'B', 'C', 'D', 'E')` loop. -/
def categoryLetters : List String := ["A", "B", "C", "D", "E"]

/-- The category-extraction loop of `valid_prompt`: the first letter (in
order A, B, C, D, E) occurring anywhere in the upper-cased raw text. -/
def extract_category (raw : String) : Option String :=
  categoryLetters.find? (fun ch => pyInStr ch (pyUpper raw))

/-- `valid_prompt` from `src/bedrock_utils.py`, given the value its internal
`generate_response` call returned.  `raw = resp_text or ''`; when `raw` is
not a string, `raw.upper()` raises and the `except` arm returns category
`None` (the exception's message text is abstracted to `"AttributeError"`).
The result is the returned dict, so that its Python truthiness is visible to
the caller. -/
def valid_prompt (resp_text : JVal) : JVal :=
  let raw := pyOr resp_text (.jstr "")
  match raw with
  | .jstr s =>
    match extract_category s with
    | some ch => .jobj [("category", .jstr ch), ("raw", .jstr s)]
    | none => .jobj [("category", .jnull), ("raw", .jstr s)]
  | _ => .jobj [("category", .jnull), ("raw", .jstr "AttributeError")]

/-! ## `app.py` context assembly and chat-turn orchestration -/

/-- The truncation marker appended by `app.py` (both per piece and on the
joined context). -/
def truncMarker : String := "\n...[truncated]"

/-- The display-text probing of the `app.py` context loop for one retrieval
result: top-level string `text`; else, when `content` is present, a string
`text` inside a `content` dict or the first dict with a string `text` in a
`content` list; else a string `chunks`; else a string `preview`.  `none`
models `text_piece` remaining `None` (or the probed branch yielding
nothing). -/
def probe_piece : JVal → Option String
  | .jobj fields =>
    match jget fields "text" with
    | some (.jstr s) => some s
    | _ =>
      match jget fields "content" with
      | some (.jobj cf) =>
        match jget cf "text" with
        | some (.jstr s) => some s
        | _ => none
      | some (.jarr items) =>
        items.findSome? (fun it =>
          match it with
          | .jobj f =>
            match jget f "text" with
            | some (.jstr s) => some s
            | _ => none
          | _ => none)
      | some _ => none
      | none =>
        match jget fields "chunks" with
        | some (.jstr s) => some s
        | _ =>
          match jget fields "preview" with
          | some (.jstr s) => some s
          | _ => none
  | _ => none

/-- The resolved per-result display text: the probed text when truthy
(non-empty), else the last-resort `json.dumps(result)` (`json.dumps` is
total on `JVal`, so the `except` arm's `str(result)` is unreachable). -/
def resolve_piece (result : JVal) : String :=
  match probe_piece result with
  | some s => if s = "" then jsonDumps result else s
  | none => jsonDumps result

/-- The per-piece size cap of `app.py`: pieces longer than 5,000 characters
are cut to 5,000 and suffixed with the truncation marker. -/
def truncate_piece (s : String) : String :=
  if pyLen s > 5000 then pyTake s 5000 ++ truncMarker else s

/-- The `context_pieces` list built by the `app.py` loop: each result's
resolved display text, truncated, appended only when the resolved text is
non-empty (`if text_piece:`). -/
def context_pieces (results : List JVal) : List String :=
  results.filterMap (fun r =>
    let t := resolve_piece r
    if t = "" then none else some (truncate_piece t))

/-- The assembled context of `app.py`: newline-join of the pieces, capped at
15,000 characters with the truncation marker appended. -/
def assemble_context (results : List JVal) : String :=
  let context := pyJoin "\n" (context_pieces results)
  if pyLen context > 15000 then pyTake context 15000 ++ truncMarker else context

/-- The fixed rejection message of the `else` branch of the chat turn. -/
def rejection_message : String := "I'm unable to answer this, please try again"

/-- The observable outcome of one chat turn: the assistant response value,
how many retrieval (`retrieve`) and generation (`invoke_model`) calls were
made, and the prompt passed to generation (`None` when no generation call
was made). -/
structure TurnOutcome where
  response : JVal
  kb_calls : Nat
  gen_calls : Nat
  gen_prompt : JVal

/-- The chat-turn handler of `app.py` (lines 34-81).  The gate's internal
model call, the knowledge-base `retrieve` call and the main generation
`invoke` call are oracles.  The source tests `if valid_prompt(prompt,
model_id):` — Python truthiness of the returned dict — to decide between the
pipeline and the fixed rejection message. -/
def chat_turn (prompt : String) (gateResp kbResp genResp : Except String JVal) :
    TurnOutcome :=
  if jTruthy (valid_prompt (generate_response_result gateResp)) then
    let kb_results := query_knowledge_base kbResp
    let context := assemble_context kb_results
    let full_prompt := "Context: " ++ context ++ "\n\nUser: " ++ prompt ++ "\n\n"
    { response := generate_response_result genResp,
      kb_calls := 1, gen_calls := 1, gen_prompt := .jstr full_prompt }
  else
    { response := .jstr rejection_message,
      kb_calls := 0, gen_calls := 0, gen_prompt := .jnull }

/-! ## Helper lemmas -/

theorem pyLen_append (a b : String) : pyLen (a ++ b) = pyLen a + pyLen b := by
  simp [pyLen, String.data_append]

theorem ne_empty_of_pyLen_pos {s : String} (h : 0 < pyLen s) : s ≠ "" := by
  intro he
  rw [he] at h
  exact absurd h (by decide)

theorem natDigitsAux_ne_nil (fuel n : Nat) : natDigitsAux (fuel + 1) n ≠ [] := by
  unfold natDigitsAux
  split <;> simp

theorem jsonDumps_ne_empty (v : JVal) : jsonDumps v ≠ "" := by
  cases v with
  | jnull => decide
  | jbool b => cases b <;> decide
  | jnum n =>
    cases n with
    | ofNat m =>
      show (⟨natDigits m⟩ : String) ≠ ""
      intro he
      have : natDigits m = [] := congrArg String.data he
      exact natDigitsAux_ne_nil m m this
    | negSucc m =>
      show (⟨'-' :: natDigits (m + 1)⟩ : String) ≠ ""
      intro he
      exact absurd (congrArg String.data he) (by simp)
  | jstr s =>
    show jsonDumpsStr s ≠ ""
    intro he
    exact absurd (congrArg String.data he) (by simp [jsonDumpsStr])
  | jarr l =>
    apply ne_empty_of_pyLen_pos
    show 0 < pyLen ("[" ++ pyJoin ", " (jsonDumpsArr l) ++ "]")
    rw [pyLen_append]
    have : pyLen "]" = 1 := by decide
    omega
  | jobj fields =>
    apply ne_empty_of_pyLen_pos
    show 0 < pyLen ("\x7b" ++ pyJoin ", " (jsonDumpsObj fields) ++ "\x7d")
    rw [pyLen_append]
    have : pyLen "\x7d" = 1 := by decide
    omega

/-- The resolved display text of a retrieval result is never empty: the
last-resort `json.dumps` serialization is non-empty for every value. -/
theorem resolve_piece_ne_empty (r : JVal) : resolve_piece r ≠ "" := by
  unfold resolve_piece
  cases hp : probe_piece r with
  | none => exact jsonDumps_ne_empty r
  | some s =>
    by_cases hs : s = ""
    · simp [hs]
      exact jsonDumps_ne_empty r
    · simp [hs]

theorem exceptBindOk {α β : Type} (a : α) (f : α → Except String β) :
    (Except.ok a >>= f : Except String β) = f a := rfl

/-- Mapping the normalizer over dict keys (as arising when a record batch is
iterated) normalizes each key string to a passage whose text is the key. -/
theorem mapM_normalize_keys (fs : List (String × JVal)) :
    (fs.map (fun kv => JVal.jstr kv.1)).mapM _normalize_retrieval_item
      = Except.ok (fs.map (fun kv => JVal.jobj [("id", .jnull), ("text", .jstr kv.1),
          ("metadata", .jobj []), ("score", .jnull)])) := by
  induction fs with
  | nil => rfl
  | cons kv rest ih =>
    simp only [List.map_cons, List.mapM_cons, ih]
    rfl

/-! ## Claim theorems -/

/-- C3 (code bug): contrary to the never-raises claim, the normalizer raises
`AttributeError` on the raw item `{'document': 'hello'}`: `doc` is bound to
the string `'hello'` and the fallback probe evaluates `doc.get('text')`. -/
theorem normalize_raises_on_string_document :
    _normalize_retrieval_item (.jobj [("document", .jstr "hello")])
      = .error "AttributeError" := rfl

/-- C9: any transport or service error raised by the `retrieve` call is
absorbed by `query_knowledge_base`, which returns the empty passage list
instead of propagating the exception. -/
theorem query_kb_absorbs_transport_errors :
    ∀ e : String, query_knowledge_base (.error e) = [] := fun _ => rfl

/-- C10: on the parsed generic-shape model response `{"output": "hello"}`
(no `content` sequence), the adapter's response extraction returns exactly
the string `"hello"`. -/
theorem extract_generic_output_roundtrip :
    extract_text (.jobj [("output", .jstr "hello")]) = .jstr "hello" := rfl

/-- C1 (code bug): with a classifier raw output of `"zzz"` the gate result
has `category = None`, yet the chat turn still makes one retrieval call and
one generation call and returns the generated text — the source tests the
truthiness of the (always non-empty) classification dict, so the rejection
branch is unreachable. -/
theorem gate_none_pipeline_still_runs :
    valid_prompt (generate_response_result (.ok (.jobj [("output", .jstr "zzz")])))
      = .jobj [("category", .jnull), ("raw", .jstr "zzz")] ∧
    chat_turn "hello" (.ok (.jobj [("output", .jstr "zzz")]))
        (.ok (.jobj [])) (.ok (.jobj [("output", .jstr "hi")]))
      = { response := .jstr "hi", kb_calls := 1, gen_calls := 1,
          gen_prompt := .jstr "Context: \n\nUser: hello\n\n" } ∧
    rejection_message ≠ "hi" :=
  ⟨rfl, rfl, by decide⟩

/-- C2 counterexample: on the raw text `"Category E"` the classifier yields
category `"A"`, not `"E"` — the fixed probing order A→B→C→D→E scans the
whole upper-cased text and `"CATEGORY"` contains an `A`. -/
theorem classify_category_e_yields_a :
    extract_category "Category E" = some "A" ∧ (some "A" : Option String) ≠ some "E" :=
  ⟨rfl, by decide⟩

/-- C2 (amended): on raw text `"Category E"` the classifier yields category
`"A"` (the first letter in the fixed order A→E found anywhere in the
upper-cased text); on any raw text whose upper-cased form contains none of
the letters A, B, C, D, E it yields no category. -/
theorem classify_first_letter_in_order :
    extract_category "Category E" = some "A" ∧
    ∀ raw : String,
      (categoryLetters.all fun ch => !pyInStr ch (pyUpper raw)) = true →
        extract_category raw = none := by
  refine ⟨rfl, ?_⟩
  intro raw h
  rw [List.all_eq_true] at h
  unfold extract_category
  rw [List.find?_eq_none]
  intro ch hch
  have := h ch hch
  simp only [Bool.not_eq_true'] at this
  simp [this]

/-- Witness for the amended C2 at the concrete raw text `"012!"`. -/
theorem classify_first_letter_in_order_witness :
    ((categoryLetters.all fun ch => !pyInStr ch (pyUpper "012!")) = true) ∧
      extract_category "012!" = none :=
  ⟨by decide, classify_first_letter_in_order.2 "012!" (by decide)⟩

/-- C5 counterexample: the model identifier `"anthropic"` contains the
marker `"anthropic"` in lower case, yet the adapter builds the flat generic
payload shape — the source tests for `'anthropic.'` with a trailing dot. -/
theorem payload_marker_anthropic_without_dot :
    pyInStr "anthropic" (pyLower "anthropic") = true ∧
    isMessagesShape (build_payload "p" "anthropic" .jnull .jnull (.jnum 512)) = false ∧
    isFlatInputShape (build_payload "p" "anthropic" .jnull .jnull (.jnum 512)) = true :=
  ⟨by decide, rfl, rfl⟩

/-- C5 (amended): the adapter builds the Claude-family messages-array shape
exactly when the lower-cased model identifier contains `"anthropic."` (with
the trailing dot) or `"claude"`, and the flat generic shape with an `input`
field otherwise. -/
theorem payload_shape_by_marker :
    ∀ (prompt model_id : String) (t tp mt : JVal),
      isMessagesShape (build_payload prompt model_id t tp mt) = claudeMarkerCond model_id ∧
      isFlatInputShape (build_payload prompt model_id t tp mt) = !claudeMarkerCond model_id := by
  intro prompt model_id t tp mt
  cases h : claudeMarkerCond model_id <;>
    refine ⟨?_, ?_⟩ <;> simp only [build_payload, h, if_true, if_false, Bool.false_eq_true,
      Bool.not_false, Bool.not_true] <;> rfl

/-- C6 counterexample: for the retrieval response
`{'retrievalResults': {'retrievalResults': [{'text': 'x'}]}}` the second
probing round (which checks only `items`, `results`, `hits`) finds nothing,
and the batch is not treated as empty: the record's keys are iterated, so
one passage with text `"retrievalResults"` is returned. -/
theorem nested_record_batch_not_empty :
    query_knowledge_base (.ok (.jobj [("retrievalResults",
        .jobj [("retrievalResults", .jarr [.jobj [("text", .jstr "x")]])])]))
      = [.jobj [("id", .jnull), ("text", .jstr "retrievalResults"),
                ("metadata", .jobj []), ("score", .jnull)]] ∧
    [JVal.jobj [("id", .jnull), ("text", .jstr "retrievalResults"),
            ("metadata", .jobj []), ("score", .jnull)]] ≠ ([] : List JVal) :=
  ⟨rfl, by simp⟩

/-- C6 (amended): when the extracted batch value is itself a non-empty
record, one additional probing round over the keys `items`, `results`,
`hits` (not `retrievalResults`) is applied, requiring a sequence value; if
no probed key of the record holds a sequence, the record itself is iterated
and each of its keys is normalized as an item, yielding one passage per key
rather than an empty batch. -/
theorem nested_record_iterates_keys :
    ∀ fs : List (String × JVal), fs ≠ [] → probeNestedBatch fs = none →
      query_knowledge_base (.ok (.jobj [("retrievalResults", .jobj fs)]))
        = fs.map (fun kv => JVal.jobj [("id", .jnull), ("text", .jstr kv.1),
            ("metadata", .jobj []), ("score", .jnull)]) := by
  intro fs hne hprobe
  have htr : jTruthy (.jobj fs) = true := by
    cases fs with
    | nil => exact absurd rfl hne
    | cons a l => rfl
  have hbody : queryKbBody (.jobj [("retrievalResults", .jobj fs)])
      = Except.ok (fs.map (fun kv => JVal.jobj [("id", .jnull), ("text", .jstr kv.1),
          ("metadata", .jobj []), ("score", .jnull)])) := by
    unfold queryKbBody
    simp only [pyGetE, pyGet, jget, exceptBindOk]
    simp only [Option.getD]
    simp only [pyOr, htr, hprobe, pyIter, exceptBindOk, if_true, ite_true]
    exact mapM_normalize_keys fs
  simp [query_knowledge_base, hbody]

/-- Witness for the amended C6 at the concrete nested record
`{'foo': []}`. -/
theorem nested_record_iterates_keys_witness :
    ([("foo", JVal.jarr [])] ≠ ([] : List (String × JVal))) ∧
    probeNestedBatch [("foo", .jarr [])] = none ∧
    query_knowledge_base (.ok (.jobj [("retrievalResults", .jobj [("foo", .jarr [])])]))
      = [.jobj [("id", .jnull), ("text", .jstr "foo"),
                ("metadata", .jobj []), ("score", .jnull)]] :=
  ⟨by simp, rfl, nested_record_iterates_keys _ (by simp) rfl⟩

/-- C4: for every sequence of retrieval results, the assembled context is at
most 15,000 characters plus the truncation-marker length; and either no
outer truncation occurred (the output is exactly the newline-join of the
pieces) or the truncation marker is a suffix of the output. -/
theorem assemble_context_bounded :
    ∀ results : List JVal,
      pyLen (assemble_context results) ≤ 15000 + pyLen truncMarker ∧
      (assemble_context results = pyJoin "\n" (context_pieces results) ∨
        truncMarker.data <:+ (assemble_context results).data) := by
  intro results
  unfold assemble_context
  by_cases h : pyLen (pyJoin "\n" (context_pieces results)) > 15000
  · rw [if_pos h]
    constructor
    · rw [pyLen_append]
      have ht : pyLen (pyTake (pyJoin "\n" (context_pieces results)) 15000) ≤ 15000 := by
        simp [pyLen, pyTake]
      omega
    · right
      rw [String.data_append]
      exact List.suffix_append _ _
  · rw [if_neg h]
    exact ⟨by omega, Or.inl rfl⟩

/-- C7: a single passage whose resolved text is exactly 5,001 characters is
assembled to exactly its first 5,000 characters followed by the truncation
marker. -/
theorem single_passage_5001_truncated :
    ∀ t : String, pyLen t = 5001 →
      assemble_context [.jobj [("text", .jstr t)]] = pyTake t 5000 ++ truncMarker := by
  intro t ht
  have hne : t ≠ "" := ne_empty_of_pyLen_pos (by omega)
  have hprobe : probe_piece (.jobj [("text", .jstr t)]) = some t := rfl
  have hres : resolve_piece (.jobj [("text", .jstr t)]) = t := by
    simp [resolve_piece, hprobe, hne]
  have htrunc : truncate_piece t = pyTake t 5000 ++ truncMarker := by
    simp [truncate_piece, ht]
  have hpieces : context_pieces [.jobj [("text", .jstr t)]] = [truncate_piece t] := by
    simp [context_pieces, hres, hne]
  have hlen : pyLen (pyTake t 5000 ++ truncMarker) = 5015 := by
    rw [pyLen_append]
    have h1 : pyLen (pyTake t 5000) = 5000 := by
      simp only [pyLen, pyTake] at ht ⊢
      simp [List.length_take, ht]
    have h2 : pyLen truncMarker = 15 := by decide
    omega
  unfold assemble_context
  rw [hpieces, htrunc]
  have hjoin : pyJoin "\n" [pyTake t 5000 ++ truncMarker] = pyTake t 5000 ++ truncMarker := rfl
  rw [hjoin, if_neg (by omega)]

/-- Witness for C7 at the concrete 5,001-character string `'a' * 5001`. -/
theorem single_passage_5001_truncated_witness :
    pyLen (⟨List.replicate 5001 'a'⟩ : String) = 5001 ∧
    assemble_context [.jobj [("text", .jstr ⟨List.replicate 5001 'a'⟩)]]
      = pyTake ⟨List.replicate 5001 'a'⟩ 5000 ++ truncMarker := by
  have h : pyLen (⟨List.replicate 5001 'a'⟩ : String) = 5001 := by
    show (List.replicate 5001 'a').length = 5001
    rw [List.length_replicate]
  exact ⟨h, single_passage_5001_truncated _ h⟩

/-- C8: the context pieces are exactly the non-empty resolved display texts,
in order, truncated (empty resolutions are omitted by the `if text_piece:`
filter); and no resolution is ever empty, because the last-resort
serialization of a passage is always a non-empty string. -/
theorem assembler_joins_nonempty_resolved :
    (∀ results : List JVal,
      context_pieces results
        = ((results.map resolve_piece).filter (fun t => !(t == ""))).map truncate_piece) ∧
    (∀ r : JVal, resolve_piece r ≠ "") := by
  constructor
  · intro results
    induction results with
    | nil => rfl
    | cons r rs ih =>
      by_cases h : resolve_piece r = ""
      · simp only [context_pieces, List.filterMap_cons, List.map_cons, List.filter_cons] at ih ⊢
        simp [h, ih]
      · simp only [context_pieces, List.filterMap_cons, List.map_cons, List.filter_cons] at ih ⊢
        simp [h, ih]
  · exact resolve_piece_ne_empty

end BedrockChat
